import Mathlib

/-!
Shallow embedding of the quadruped servo firmware and host tooling.

Sources:
* `src/servo.py`   — class `Servo` (per-channel calibration, `move`,
  `update_settings`, `__angle_to_u16_duty`, `__initialise`);
* `src/main.py`    — the device receive loop (read a line, `ujson.loads`,
  `servos[i].move(angle)` under `except ValueError`);
* `src/vscode_main.py` — `SerialCommunicator` (`open_serial`, `send_command`)
  and `StateManager` (`load_states`, `save_states`, `set_state`, `get_state`).

Numeric idealisation: Python floats are embedded as exact rationals `ℚ`,
Python ints as `ℤ`.  `round(x, 2)` is round-half-to-even at two decimals on
the exact value, and `int(x)` is truncation toward zero.  The PWM hardware
capability (`machine.PWM.duty_u16`) and the external libraries (`ujson`,
`serial`, `json`, file I/O) are collaborators outside the repository: they
are embedded as the value they deliver to the repository code (a decode
outcome, an open outcome, the stored bytes), never reimplemented.
-/

/-- Python `int(x)` applied to a rational: truncation toward zero. -/
def pyint (q : ℚ) : ℤ :=
  if 0 ≤ q then ⌊q⌋ else ⌈q⌉

/-- Round-half-to-even to the nearest integer, the tie rule of Python `round`. -/
def roundHalfEven (q : ℚ) : ℤ :=
  if q - ⌊q⌋ < 1/2 then ⌊q⌋
  else if q - ⌊q⌋ = 1/2 then (if ⌊q⌋ % 2 = 0 then ⌊q⌋ else ⌊q⌋ + 1)
  else ⌊q⌋ + 1

/-- Python `round(x, 2)`: round to two decimal places with the banker tie rule. -/
def round2 (q : ℚ) : ℚ :=
  (roundHalfEven (q * 100) : ℚ) / 100

/-- State of one `Servo` instance (`src/servo.py`).  The GPIO pin and the
`machine.PWM` object are hardware handles with no influence on the angle/duty
arithmetic, so they are not part of the state. -/
structure ServoState where
  servo_pwm_freq : ℤ
  min_u16_duty : ℤ
  max_u16_duty : ℤ
  min_angle : ℚ
  max_angle : ℚ
  current_angle : ℚ
  angle_conversion_factor : ℚ
  deriving DecidableEq, Repr

/-- Model of `Servo.__initialise`: reset `current_angle` to the sentinel `-0.001` and
recompute the conversion factor.  (The PWM object construction and
`freq(...)` call are hardware side effects.) -/
def initialise (s : ServoState) : ServoState :=
  { s with
    current_angle := -1/1000
    angle_conversion_factor :=
      ((s.max_u16_duty : ℚ) - s.min_u16_duty) / (s.max_angle - s.min_angle) }

/-- A fresh `Servo(pin=p)`: class defaults (`freq = 50`,
`min duty = 1640 - 2`, `max duty = 7864 - 0`, angles `0..180`,
class-level `current_angle = 0.001`) followed by `__initialise`. -/
def servoInit : ServoState :=
  initialise
    { servo_pwm_freq := 50
      min_u16_duty := 1640 - 2
      max_u16_duty := 7864 - 0
      min_angle := 0
      max_angle := 180
      current_angle := 1/1000
      angle_conversion_factor := 0 }

/-- Model of `Servo.update_settings`: replace the calibration constants and
re-run `__initialise`.  The trailing `pin` argument only re-creates the
hardware handle. -/
def update_settings (s : ServoState) (freq min_d max_d : ℤ) (minA maxA : ℚ)
    (_pin : ℤ) : ServoState :=
  initialise
    { s with
      servo_pwm_freq := freq
      min_u16_duty := min_d
      max_u16_duty := max_d
      min_angle := minA
      max_angle := maxA }

/-- Model of `Servo.__angle_to_u16_duty`:
`int((angle - min_angle) * angle_conversion_factor) + min_u16_duty`. -/
def angle_to_u16_duty (s : ServoState) (angle : ℚ) : ℤ :=
  pyint ((angle - s.min_angle) * s.angle_conversion_factor) + s.min_u16_duty

/-- Model of `Servo.move`: round the requested angle to two decimals; if it equals
`current_angle` return without touching the hardware, otherwise update
`current_angle` and write the converted duty.  The second component is the
duty value handed to `PWM.duty_u16`, `none` when no write was issued. -/
def move (s : ServoState) (a : ℚ) : ServoState × Option ℤ :=
  let angle := round2 a
  if angle = s.current_angle then (s, none)
  else ({ s with current_angle := angle }, some (angle_to_u16_duty s angle))

/-- Fold a sequence of `move` commands over the state of one channel. -/
def applyAll (s : ServoState) (as : List ℚ) : ServoState :=
  as.foldl (fun st a => (move st a).1) s

/-! ## The device receive loop (`src/main.py`)

`servos = [Servo(pin=p) for p in range(8)]` followed by the infinite loop

```text
command = sys.stdin.readline().strip()
if command:
    try:
        command_data = ujson.loads(command)
        for i, angle in enumerate(command_data):
            servos[i].move(angle)
    except ValueError:
        print("Error decoding JSON\r\n")
time.sleep(0.1)
```

`ujson` is an external library; a received line is embedded as the outcome
it delivers: the empty line (skipped by `if command:`), a `ValueError`
raised by `ujson.loads` on malformed text, or the decoded JSON value. -/

/-- A decoded JSON value as `ujson.loads` returns it (numbers, strings,
arrays, objects; the other atoms never appear in the claims). -/
inductive JVal where
  | num (q : ℚ)
  | str (s : String)
  | arr (elems : List JVal)
  | obj (entries : List (String × JVal))

/-- The exceptions the loop body can raise: `ValueError` from `ujson.loads`
(the only one the `except` clause catches), `TypeError` from
`enumerate`/`round` on a non-number, `IndexError` from `servos[i]`. -/
inductive PyExc where
  | valueError
  | typeError
  | indexError
  deriving DecidableEq, Repr

/-- One stripped input line, as delivered to the loop body by
`sys.stdin.readline().strip()` and `ujson.loads`. -/
inductive LineInput where
  | empty
  | malformed
  | parsed (v : JVal)

/-- Result of one loop iteration: either the loop reaches `time.sleep` and
continues (with the servo states and the lines printed), or an uncaught
exception escapes the `try` and terminates the process, the mutations made
so far persisting. -/
inductive StepResult where
  | cont (servos : List ServoState) (printed : List String)
  | crashed (exc : PyExc) (servos : List ServoState)
  deriving DecidableEq, Repr

/-- Does the iteration end in an uncaught exception? -/
def StepResult.crashes : StepResult → Bool
  | .crashed _ _ => true
  | _ => false

/-- Python `enumerate(x)` on a decoded JSON value: arrays yield their
elements, strings their one-character substrings, dicts their keys;
a number is not iterable (`TypeError`). -/
def iterItems : JVal → Option (List JVal)
  | .num _ => none
  | .str s => some (s.data.map (fun c => JVal.str (String.mk [c])))
  | .arr xs => some xs
  | .obj kvs => some (kvs.map (fun kv => JVal.str kv.1))

/-- The `for i, angle in enumerate(command_data): servos[i].move(angle)`
loop: `servos[i]` raises `IndexError` past the end of the list, and `move`
raises `TypeError` (inside `round`) on a non-numeric element.  On error the
list of states mutated so far is carried out with the exception. -/
def runCmds (servos : List ServoState) (i : ℕ) :
    List JVal → Except (PyExc × List ServoState) (List ServoState)
  | [] => .ok servos
  | v :: rest =>
    if i < servos.length then
      match v with
      | .num q => runCmds (servos.set i (move (servos.getD i servoInit) q).1) (i + 1) rest
      | _ => .error (.typeError, servos)
    else .error (.indexError, servos)

/-- The diagnostic printed by the `except ValueError` handler. -/
def errMsg : String := "Error decoding JSON\r\n"

/-- One iteration of the receive loop on one input line. -/
def loopStep (servos : List ServoState) (inp : LineInput) : StepResult :=
  match inp with
  | .empty => .cont servos []
  | .malformed => .cont servos [errMsg]
  | .parsed v =>
    match iterItems v with
    | none => .crashed .typeError servos
    | some items =>
      match runCmds servos 0 items with
      | .ok servos2 => .cont servos2 []
      | .error (.valueError, servos2) => .cont servos2 [errMsg]
      | .error (e, servos2) => .crashed e servos2

/-- The eight channels created at device start. -/
def init8 : List ServoState := List.replicate 8 servoInit

/-- Index-aligned application of a decoded pose: channel `i` gets
`move(angle[i])` for each index present, channels past the end of the pose
are left untouched.  This is the intended meaning of the loop body, related
to `runCmds` below. -/
def applyPose : List ServoState → List ℚ → List ServoState
  | ss, [] => ss
  | [], _ => []
  | s :: ss, q :: qs => (move s q).1 :: applyPose ss qs

/-! ## Host side (`src/vscode_main.py`)

`SerialCommunicator` and `StateManager`; the `serial` library, `json`
library and the filesystem are external collaborators, embedded as the
outcomes they deliver. -/

/-- Behaviour of the external serial port during one `send_command` call:
whether `serial.Serial(...)` succeeds, and whether the write/read
transaction completes without a `SerialException`. -/
structure SerialEnv where
  openOk : Bool
  transactionOk : Bool
  deriving DecidableEq, Repr

/-- Model of `SerialCommunicator.open_serial`: `self.ser` becomes an open handle
(`some true`, pyserial opens on construction) or `None` when the
constructor raised `SerialException`. -/
def open_serial (env : SerialEnv) : Option Bool :=
  if env.openOk then some true else none

/-- What one `send_command` call did: its return value, the wire messages
written (each a pose, serialised as `json.dumps(pose) + "\r\n"`), and
whether a serial connection is still open when it returns. -/
structure SendOutcome where
  result : Bool
  writes : List (List ℚ)
  serOpenAtReturn : Bool
  deriving DecidableEq, Repr

/-- Model of `SerialCommunicator.send_command`: open the port; if `self.ser` is not
an open handle, print and return `False` with nothing written; otherwise
write the encoded command, optionally read one reply line (diagnostic
only), close, and return `True`; a `SerialException` during the
transaction is caught, the port closed, and `False` returned. -/
def send_command (env : SerialEnv) (command : List ℚ) : SendOutcome :=
  match open_serial env with
  | some true =>
    if env.transactionOk then
      { result := true, writes := [command], serOpenAtReturn := false }
    else
      { result := false, writes := [], serOpenAtReturn := false }
  | _ => { result := false, writes := [], serOpenAtReturn := false }

/-- A stored pose as `StateManager` keeps it: a JSON object mapping a
channel label (`"Servo 1"`, ...) to an angle. -/
abbrev PoseMap := List (String × ℚ)

/-- The in-memory `self.states` dict: pose name to pose. -/
abbrev StatesMap := List (String × PoseMap)

/-- Python `d[k] = v` on a dict: overwrite in place or append. -/
def dictInsert (m : StatesMap) (k : String) (v : PoseMap) : StatesMap :=
  match m with
  | [] => [(k, v)]
  | (k2, v2) :: rest => if k2 = k then (k, v) :: rest else (k2, v2) :: dictInsert rest k v

/-- Python `d.get(k, None)`. -/
def dictGet (m : StatesMap) (k : String) : Option PoseMap :=
  match m with
  | [] => none
  | (k2, v2) :: rest => if k2 = k then some v2 else dictGet rest k

/-- Contents of `robot_states.json`: `some` mapping when the file exists
and parses, `none` when it is missing or corrupt (`FileNotFoundError` /
`JSONDecodeError`). -/
abbrev Disk := Option StatesMap

/-- Model of `StateManager.load_states`: read the file, falling back to the empty mapping. -/
def load_states (disk : Disk) : StatesMap :=
  match disk with
  | some states => states
  | none => []

/-- Model of `StateManager.save_states`: `json.dump(self.states, f)` replaces the
whole file with the current mapping. -/
def save_states (states : StatesMap) : Disk :=
  some states

/-- Model of `StateManager.set_state`: `self.states[name] = state` then
`self.save_states()`; returns the new in-memory mapping and the new file
contents (the flush happens before `set_state` returns). -/
def set_state (states : StatesMap) (name : String) (state : PoseMap) :
    StatesMap × Disk :=
  let states2 := dictInsert states name state
  (states2, save_states states2)

/-- Model of `StateManager.get_state`: `self.states.get(name, None)`. -/
def get_state (states : StatesMap) (name : String) : Option PoseMap :=
  dictGet states name

/-- Count of hardware writes issued by one `move` result. -/
def writeCount (o : Option ℤ) : ℕ :=
  if o.isSome then 1 else 0

/-- Hardware writes issued by `apply(a)` immediately followed by `apply(a)`. -/
def movesWrites2 (s : ServoState) (a : ℚ) : ℕ :=
  writeCount (move s a).2 + writeCount (move (move s a).1 a).2

/-- Index-offset form of the loop body, used to relate `runCmds` to
`applyPose`. -/
def applyFrom : List ServoState → ℕ → List ℚ → List ServoState
  | ss, _, [] => ss
  | ss, i, q :: qs => applyFrom (ss.set i (move (ss.getD i servoInit) q).1) (i + 1) qs

/-! ## Helper lemmas -/

lemma pyint_intCast (n : ℤ) : pyint (n : ℚ) = n := by
  unfold pyint
  split
  · exact Int.floor_intCast n
  · exact Int.ceil_intCast n

lemma pyint_zero : pyint 0 = 0 := by
  simpa using pyint_intCast 0

lemma pyint_mono {q r : ℚ} (h : q ≤ r) : pyint q ≤ pyint r := by
  unfold pyint
  by_cases hq : 0 ≤ q
  · rw [if_pos hq, if_pos (le_trans hq h)]
    exact Int.floor_le_floor h
  · by_cases hr : 0 ≤ r
    · rw [if_neg hq, if_pos hr]
      have h1 : ⌈q⌉ ≤ 0 := Int.ceil_le.mpr (by push_cast; linarith [lt_of_not_le hq])
      have h2 : (0 : ℤ) ≤ ⌊r⌋ := Int.le_floor.mpr (by exact_mod_cast hr)
      omega
    · rw [if_neg hq, if_neg hr]
      exact Int.ceil_le_ceil h

lemma roundHalfEven_intCast (n : ℤ) : roundHalfEven (n : ℚ) = n := by
  unfold roundHalfEven
  rw [Int.floor_intCast, sub_self]
  norm_num

lemma round2_intCast (n : ℤ) : round2 (n : ℚ) = n := by
  unfold round2
  have h : ((n : ℚ) * 100) = ((n * 100 : ℤ) : ℚ) := by push_cast; ring
  rw [h, roundHalfEven_intCast]
  push_cast
  ring

/-- Two-decimal rounding never produces the sentinel `-0.001`: a rounded
angle is an integer number of hundredths, the sentinel is not. -/
lemma round2_ne_sentinel (a : ℚ) : round2 a ≠ -1/1000 := by
  intro h
  unfold round2 at h
  rw [div_eq_div_iff (by norm_num) (by norm_num)] at h
  have h2 : (roundHalfEven (a * 100)) * 1000 = (-1) * 100 := by exact_mod_cast h
  omega

lemma move_writes (s : ServoState) (a : ℚ) (h : round2 a ≠ s.current_angle) :
    move s a =
      ({ s with current_angle := round2 a }, some (angle_to_u16_duty s (round2 a))) := by
  simp [move, h]

lemma move_skips (s : ServoState) (a : ℚ) (h : round2 a = s.current_angle) :
    move s a = (s, none) := by
  simp [move, h]

/-- After any `move(a)`, successful or skipped, `current_angle` is the
two-decimal rounding of `a` (a skip only happens when it already is). -/
lemma move_current (s : ServoState) (a : ℚ) :
    (move s a).1.current_angle = round2 a := by
  by_cases h : round2 a = s.current_angle
  · rw [move_skips s a h]
    exact h.symm
  · rw [move_writes s a h]

lemma servoInit_current : servoInit.current_angle = -1/1000 := rfl

lemma round2_90 : round2 90 = 90 := by
  norm_num [round2, roundHalfEven]

lemma runCmds_map_num (qs : List ℚ) : ∀ (ss : List ServoState) (i : ℕ),
    i + qs.length ≤ ss.length →
    runCmds ss i (qs.map JVal.num) = Except.ok (applyFrom ss i qs) := by
  induction qs with
  | nil => intro ss i _; rfl
  | cons q qs ih =>
    intro ss i h
    have hi : i < ss.length := by
      simp only [List.length_cons] at h
      omega
    simp only [List.map_cons, runCmds]
    rw [if_pos hi]
    exact ih (ss.set i (move (ss.getD i servoInit) q).1) (i + 1)
      (by simp only [List.length_set]; simp only [List.length_cons] at h; omega)

lemma applyFrom_nil (ss : List ServoState) (i : ℕ) : applyFrom ss i [] = ss := by
  cases ss <;> rfl

lemma applyPose_nil (ss : List ServoState) : applyPose ss [] = ss := by
  cases ss <;> rfl

lemma applyFrom_cons (s : ServoState) (qs : List ℚ) : ∀ (ss : List ServoState) (i : ℕ),
    applyFrom (s :: ss) (i + 1) qs = s :: applyFrom ss i qs := by
  induction qs with
  | nil => intro ss i; rw [applyFrom_nil, applyFrom_nil]
  | cons q qs ih =>
    intro ss i
    show applyFrom ((s :: ss).set (i + 1) (move ((s :: ss).getD (i + 1) servoInit) q).1)
        (i + 1 + 1) qs = s :: applyFrom ss i (q :: qs)
    rw [List.set_cons_succ, List.getD_cons_succ]
    exact ih (ss.set i (move (ss.getD i servoInit) q).1) (i + 1)

lemma applyFrom_zero (qs : List ℚ) : ∀ ss : List ServoState, qs.length ≤ ss.length →
    applyFrom ss 0 qs = applyPose ss qs := by
  induction qs with
  | nil => intro ss _; rw [applyFrom_nil, applyPose_nil]
  | cons q qs ih =>
    intro ss h
    match ss with
    | [] => simp at h
    | s :: ss =>
      show applyFrom ((s :: ss).set 0 (move ((s :: ss).getD 0 servoInit) q).1) 1 qs =
        (move s q).1 :: applyPose ss qs
      rw [List.set_cons_zero, List.getD_cons_zero]
      rw [show (1 : ℕ) = 0 + 1 from rfl, applyFrom_cons]
      rw [ih ss (by simp only [List.length_cons] at h; omega)]

lemma applyPose_drop (qs : List ℚ) : ∀ ss : List ServoState,
    (applyPose ss qs).drop qs.length = ss.drop qs.length := by
  induction qs with
  | nil => intro ss; rw [applyPose_nil]
  | cons q qs ih =>
    intro ss
    match ss with
    | [] => rfl
    | s :: ss =>
      show ((move s q).1 :: applyPose ss qs).drop (qs.length + 1) = (s :: ss).drop (qs.length + 1)
      rw [List.drop_succ_cons, List.drop_succ_cons]
      exact ih ss

lemma dictGet_dictInsert (m : StatesMap) (k : String) (v : PoseMap) :
    dictGet (dictInsert m k v) k = some v := by
  induction m with
  | nil => simp [dictInsert, dictGet]
  | cons kv rest ih =>
    obtain ⟨k2, v2⟩ := kv
    by_cases h : k2 = k
    · simp [dictInsert, dictGet, h]
    · simp [dictInsert, dictGet, h, ih]

/-! ## Claim theorems -/

/-- C1 (amended): for a received line decoding as a JSON array of at most
N = 8 numbers, the receive loop applies `move(angle[i])` to channel `i` for
each index present, prints nothing, continues, and leaves the channels past
the end of the array untouched.  (The "extra elements beyond N are ignored"
part of the claim is refuted separately: a longer array crashes the loop.) -/
theorem claim1_short_pose_applied (ss : List ServoState) (qs : List ℚ)
    (hss : ss.length = 8) (hqs : qs.length ≤ 8) :
    loopStep ss (.parsed (.arr (qs.map JVal.num))) = .cont (applyPose ss qs) [] ∧
    (applyPose ss qs).drop qs.length = ss.drop qs.length := by
  constructor
  · have h := runCmds_map_num qs ss 0 (by omega)
    simp only [loopStep, iterItems, h]
    rw [applyFrom_zero qs ss (by omega)]
  · exact applyPose_drop qs ss

/-- C1 witness: decoding `[90, 45]` with 8 channels applies channels 0 and 1
and leaves channels 2..7 untouched, and the loop continues. -/
theorem claim1_witness :
    loopStep init8 (.parsed (.arr ([90, 45].map JVal.num))) =
      .cont (applyPose init8 [90, 45]) [] ∧
    (applyPose init8 [90, 45]).drop 2 = init8.drop 2 :=
  claim1_short_pose_applied init8 [90, 45] (by simp [init8]) (by simp)

lemma init8_expand :
    init8 = [servoInit, servoInit, servoInit, servoInit,
             servoInit, servoInit, servoInit, servoInit] := rfl

/-- C1 counterexample: a 9-element array is not "ignored beyond N": after
applying channels 0..7 the loop body evaluates `servos[8]`, raising an
uncaught `IndexError` that terminates the loop. -/
theorem claim1_counterexample :
    (loopStep init8 (.parsed (.arr
      [JVal.num 90, JVal.num 90, JVal.num 90, JVal.num 90, JVal.num 90,
       JVal.num 90, JVal.num 90, JVal.num 90, JVal.num 90]))).crashes = true := by
  norm_num [loopStep, iterItems, init8_expand, runCmds, move, round2_90,
    servoInit_current, StepResult.crashes]

/-- C2 (amended): a line that is not syntactically valid JSON (`ujson.loads`
raises `ValueError`) makes the loop print the diagnostic, leave the state
of every channel unchanged, and continue to the next iteration.  (The wider
class of the claim — any line not decoding as an array of numbers — is
refuted separately: valid JSON that is not iterable crashes the loop.) -/
theorem claim2_malformed_line_continues (ss : List ServoState) :
    loopStep ss .malformed = .cont ss [errMsg] := rfl

/-- C2 counterexample: the line `"123"` fails to decode as a JSON array of
numbers, yet the loop does not print-and-continue: `enumerate(123)` raises
an uncaught `TypeError` and the loop terminates. -/
theorem claim2_counterexample :
    (loopStep init8 (.parsed (.num 123))).crashes = true := rfl

/-- C3 (amended): when the two-decimal rounding of `a` differs from
`current_angle`, `apply(a)` writes the duty
`int((round2(a) - min_angle) * conversion_factor) + min_duty`, where `int`
is Python truncation toward zero — not rounding to the nearest integer, and
applied to the rounded angle. -/
theorem claim3_duty_truncated (s : ServoState) (a : ℚ)
    (h : round2 a ≠ s.current_angle) :
    (move s a).2 =
      some (pyint ((round2 a - s.min_angle) * s.angle_conversion_factor) +
        s.min_u16_duty) := by
  rw [move_writes s a h]
  rfl

/-- C3 witness: the freshly initialised channel moved to angle 1. -/
theorem claim3_witness :
    round2 1 ≠ servoInit.current_angle ∧
    (move servoInit 1).2 =
      some (pyint ((round2 1 - servoInit.min_angle) * servoInit.angle_conversion_factor) +
        servoInit.min_u16_duty) :=
  ⟨round2_ne_sentinel 1, claim3_duty_truncated servoInit 1 (round2_ne_sentinel 1)⟩

/-- C3 counterexample: at angle 1 on the default calibration the code writes
`int(6226/180) + 1638 = 1672`, while rounding to the nearest integer as the
claim states would give `round(6226/180) + 1638 = 1673`. -/
theorem claim3_counterexample :
    (move servoInit 1).2 = some 1672 ∧
    round ((1 - servoInit.min_angle) * servoInit.angle_conversion_factor) +
      servoInit.min_u16_duty = 1673 ∧
    some (1672 : ℤ) ≠ some (1673 : ℤ) := by
  refine ⟨?_, ?_, by decide⟩
  · norm_num [move, round2, roundHalfEven, angle_to_u16_duty, pyint,
      servoInit, initialise]
  · norm_num [servoInit, initialise, round_eq]

/-- C4 (amended): boundary exactness holds for calibrations whose angle
endpoints are fixed by two-decimal rounding (in particular all integer
calibrations, which is what `update_settings` documents): from the
post-initialisation sentinel, `apply(min_angle)` writes `min_duty` and
`apply(max_angle)` writes `max_duty`. -/
theorem claim4_boundary_exact (s0 : ServoState) (freq min_d max_d : ℤ)
    (minA maxA : ℚ) (pin : ℤ) (hA : minA < maxA) (_hd : min_d < max_d)
    (hminA : round2 minA = minA) (hmaxA : round2 maxA = maxA) :
    (move (update_settings s0 freq min_d max_d minA maxA pin) minA).2 = some min_d ∧
    (move (update_settings s0 freq min_d max_d minA maxA pin) maxA).2 = some max_d := by
  set s := update_settings s0 freq min_d max_d minA maxA pin with hs
  have hcur : s.current_angle = -1/1000 := rfl
  have hfac : s.angle_conversion_factor = ((max_d : ℚ) - min_d) / (maxA - minA) := rfl
  have hminfld : s.min_angle = minA := rfl
  have hmind : s.min_u16_duty = min_d := rfl
  have h1 : round2 minA ≠ s.current_angle := by
    rw [hcur]; exact round2_ne_sentinel minA
  have h2 : round2 maxA ≠ s.current_angle := by
    rw [hcur]; exact round2_ne_sentinel maxA
  constructor
  · rw [move_writes s minA h1]
    show some (angle_to_u16_duty s (round2 minA)) = some min_d
    rw [angle_to_u16_duty, hminfld, hmind, hminA, sub_self, zero_mul, pyint_zero,
      zero_add]
  · rw [move_writes s maxA h2]
    show some (angle_to_u16_duty s (round2 maxA)) = some max_d
    rw [angle_to_u16_duty, hminfld, hmind, hfac, hmaxA]
    have hne : maxA - minA ≠ 0 := sub_ne_zero.mpr (ne_of_gt hA)
    have key : (maxA - minA) * (((max_d : ℚ) - min_d) / (maxA - minA)) =
        ((max_d - min_d : ℤ) : ℚ) := by
      rw [mul_comm, div_mul_cancel₀ _ hne]
      push_cast
      ring
    rw [key, pyint_intCast, sub_add_cancel]

/-- C4 witness: the default integer calibration written through
`update_settings`: `apply(0)` writes duty 1638, `apply(180)` writes 7864. -/
theorem claim4_witness :
    (move (update_settings servoInit 50 1638 7864 0 180 0) 0).2 = some 1638 ∧
    (move (update_settings servoInit 50 1638 7864 0 180 0) 180).2 = some 7864 :=
  claim4_boundary_exact servoInit 50 1638 7864 0 180 0 (by norm_num) (by norm_num)
    (by simpa using round2_intCast 0) (by simpa using round2_intCast 180)

/-- C4 counterexample: the calibration `min_angle = 0.004`,
`max_angle = 10.004`, duty range `0..10000` satisfies the hypotheses of
the claim, yet `apply(min_angle)` from the sentinel writes duty `-4`, not
`min_duty = 0`: `move` first rounds `0.004` to `0.0`, and the conversion of
`0.0` truncates `(0 - 0.004) * 1000` to `-4`. -/
theorem claim4_counterexample :
    ((1/250 : ℚ) < 2501/250) ∧ ((0 : ℤ) < 10000) ∧
    (move (update_settings servoInit 50 0 10000 (1/250) (2501/250) 0) (1/250)).2 =
      some (-4) ∧
    some (-4 : ℤ) ≠ some (0 : ℤ) := by
  refine ⟨by norm_num, by norm_num, ?_, by decide⟩
  norm_num [move, update_settings, initialise, servoInit, round2, roundHalfEven,
    angle_to_u16_duty, pyint]
  rw [show (-4 : ℚ) = ((-4 : ℤ) : ℚ) by norm_num]
  exact Int.ceil_intCast (-4)

/-- C5 (amended): `apply(a)` immediately followed by `apply(a)` issues at
most one hardware write, and the second call never writes; the count is
exactly one precisely when the first call wrote, i.e. when the rounded
angle differed from `current_angle` beforehand (when it already matched,
both calls skip and zero writes are issued). -/
theorem claim5_repeat_apply (s : ServoState) (a : ℚ) :
    (move (move s a).1 a).2 = none ∧
    movesWrites2 s a ≤ 1 ∧
    (round2 a ≠ s.current_angle → movesWrites2 s a = 1) := by
  have hx : round2 a = (move s a).1.current_angle := (move_current s a).symm
  have hsecond : (move (move s a).1 a).2 = none := by
    rw [move_skips _ a hx]
  refine ⟨hsecond, ?_, ?_⟩
  · unfold movesWrites2
    rw [hsecond]
    cases hfst : (move s a).2 <;> simp [writeCount]
  · intro hne
    unfold movesWrites2
    rw [hsecond, move_writes s a hne]
    simp [writeCount]

/-- C5 witness: on a fresh channel, `apply(5); apply(5)` issues exactly one
write and the second call issues none. -/
theorem claim5_witness :
    (move (move servoInit 5).1 5).2 = none ∧ movesWrites2 servoInit 5 = 1 :=
  ⟨(claim5_repeat_apply servoInit 5).1,
   (claim5_repeat_apply servoInit 5).2.2 (round2_ne_sentinel 5)⟩

/-- C5 counterexample: in the (reachable) state where `current_angle` is
already 90, the pair `apply(90); apply(90)` issues zero hardware writes,
not exactly one as the claim states for every state. -/
theorem claim5_counterexample :
    movesWrites2 (move servoInit 90).1 90 = 0 ∧ (0 : ℕ) ≠ 1 := by
  have h : round2 90 = ((move servoInit 90).1).current_angle :=
    (move_current servoInit 90).symm
  refine ⟨?_, by decide⟩
  unfold movesWrites2
  simp [move_skips _ 90 h, writeCount]

/-- C6 (confirmed): after `update_settings` (with a non-degenerate angle
range, as Python division requires), `apply(a)` always issues a hardware
write, even if `a` equals the previously applied angle, because
`__initialise` reset `current_angle` to the sentinel `-0.001`, which no
two-decimal rounding can equal. -/
theorem claim6_reconfigure_forces_write (s : ServoState) (freq min_d max_d : ℤ)
    (minA maxA : ℚ) (pin : ℤ) (a : ℚ) (_h : minA ≠ maxA) :
    ((move (update_settings s freq min_d max_d minA maxA pin) a).2).isSome = true := by
  set s2 := update_settings s freq min_d max_d minA maxA pin with hs2
  have hcur : s2.current_angle = -1/1000 := rfl
  have hne : round2 a ≠ s2.current_angle := by
    rw [hcur]; exact round2_ne_sentinel a
  rw [move_writes s2 a hne]
  rfl

/-- C6 witness: reconfigure to the default range, then `apply(33)` writes. -/
theorem claim6_witness :
    ((move (update_settings servoInit 50 1000 9000 0 180 0) 33).2).isSome = true :=
  claim6_reconfigure_forces_write servoInit 50 1000 9000 0 180 0 33 (by norm_num)

/-- C7 (confirmed): after any non-empty sequence of `move` commands on a
channel, `current_angle` equals the last applied angle rounded to two
decimal places (the hardware capability `PWM.duty_u16` has no failure path
in the source, so every issued write is a successful one). -/
theorem claim7_current_angle_invariant (s : ServoState) (as : List ℚ) (a : ℚ) :
    (applyAll s (as ++ [a])).current_angle = round2 a := by
  unfold applyAll
  rw [List.foldl_append]
  simp only [List.foldl_cons, List.foldl_nil]
  exact move_current _ a

/-- C8 (confirmed): when the serial port cannot be opened
(`serial.Serial` raises `SerialException`, caught inside `open_serial`,
leaving `self.ser = None`), `send_command` returns `False`, writes nothing
to the wire, and holds no connection open at return; no exception escapes
(the model function is total). -/
theorem claim8_send_unopenable (env : SerialEnv) (pose : List ℚ)
    (h : env.openOk = false) :
    send_command env pose =
      { result := false, writes := [], serOpenAtReturn := false } := by
  simp [send_command, open_serial, h]

/-- C8 witness: a concrete unopenable port and a full 8-channel pose. -/
theorem claim8_witness :
    send_command { openOk := false, transactionOk := true }
        [90, 45, 0, 180, 90, 90, 90, 90] =
      { result := false, writes := [], serOpenAtReturn := false } :=
  claim8_send_unopenable { openOk := false, transactionOk := true }
    [90, 45, 0, 180, 90, 90, 90, 90] rfl

/-- C9 (confirmed): `set_state(name, pose)` flushes the whole updated
mapping to disk before returning, so a fresh `load_states` of that disk
(a process restart) followed by `get_state(name)` returns exactly the pose
that was stored. -/
theorem claim9_set_then_reload (states : StatesMap) (name : String)
    (pose : PoseMap) :
    get_state (load_states (set_state states name pose).2) name = some pose := by
  simp only [set_state, save_states, load_states, get_state]
  exact dictGet_dictInsert states name pose

/-- C10 (confirmed): for any calibration installed by `update_settings`
with `min_duty < max_duty` and `min_angle < max_angle`, the angle-to-duty
conversion is monotone non-decreasing: the conversion factor is positive
and Python `int` truncation is monotone. -/
theorem claim10_duty_monotone (s0 : ServoState) (freq min_d max_d : ℤ)
    (minA maxA : ℚ) (pin : ℤ) (a b : ℚ)
    (hd : min_d < max_d) (hA : minA < maxA) (hab : a ≤ b) :
    angle_to_u16_duty (update_settings s0 freq min_d max_d minA maxA pin) a ≤
      angle_to_u16_duty (update_settings s0 freq min_d max_d minA maxA pin) b := by
  set s := update_settings s0 freq min_d max_d minA maxA pin with hs
  have hfac : s.angle_conversion_factor = ((max_d : ℚ) - min_d) / (maxA - minA) := rfl
  have hfpos : 0 < s.angle_conversion_factor := by
    rw [hfac]
    apply div_pos
    · have hcast : (min_d : ℚ) < max_d := by exact_mod_cast hd
      linarith
    · linarith
  unfold angle_to_u16_duty
  have hmul : (a - s.min_angle) * s.angle_conversion_factor ≤
      (b - s.min_angle) * s.angle_conversion_factor := by
    apply mul_le_mul_of_nonneg_right _ (le_of_lt hfpos)
    linarith
  exact add_le_add_right (pyint_mono hmul) _

/-- C10 witness: the default calibration, angles 10 and 20. -/
theorem claim10_witness :
    angle_to_u16_duty (update_settings servoInit 50 1638 7864 0 180 0) 10 ≤
      angle_to_u16_duty (update_settings servoInit 50 1638 7864 0 180 0) 20 :=
  claim10_duty_monotone servoInit 50 1638 7864 0 180 0 10 20 (by norm_num)
    (by norm_num) (by norm_num)
